import Mathlib

/-!
Verification of the relevance-scoring and deduplication pipeline of the
breaking-news bot (`src/breaking_news_bot.py`).  Python strings are modelled
as `List Char`; `str.upper` as a character-wise ASCII upper-casing (all
keywords in the configuration are ASCII); the `in` substring test as
`containsSub`; Python `int` scores as `Nat` (all contributions are
non-negative); timestamps as `Int` measured in hours, so the 48-hour
retention window is the constant `48`; the MD5 hex digest in
`generate_news_id` as the identity on its pre-image (the digest is a
deterministic function of the combined string, which is all the
deduplication logic relies on).
-/

namespace NewsBot

/-- Character-wise upper-casing, the model of Python `str.upper` on the
ASCII strings used by the bot's keyword configuration. -/
def upper (s : List Char) : List Char := s.map Char.toUpper

/-- Substring test: `containsSub hay needle` models Python `needle in hay`. -/
def containsSub : List Char → List Char → Bool
  | [], needle => needle.isEmpty
  | c :: t, needle => needle.isPrefixOf (c :: t) || containsSub t needle

/-- Model of Python `str.strip`: drop whitespace from both ends. -/
def pyStrip (s : List Char) : List Char :=
  ((s.dropWhile Char.isWhitespace).reverse.dropWhile Char.isWhitespace).reverse

/-- Auxiliary word counter: counts maximal runs of non-space characters,
carrying a flag that records whether we are inside a word. -/
def countWordsAux : List Char → Bool → Nat
  | [], _ => 0
  | c :: t, inWord =>
    if c = ' ' then countWordsAux t false
    else (if inWord then 0 else 1) + countWordsAux t true

/-- Model of Python `len(s.split())`: the number of whitespace-separated
words (the configured keywords only contain single spaces). -/
def countWords (s : List Char) : Nat := countWordsAux s false

/-- The static urgency-trigger list `URGENT_TRIGGERS` of
`src/breaking_news_bot.py`. -/
def URGENT_TRIGGERS : List (List Char) :=
  ["BREAKING", "URGENT", "ALERT", "FLASH", "JUST IN",
   "HALT", "SUSPENDED", "CRASH", "PLUNGE", "SURGE",
   "EMERGENCY", "CRISIS", "WARNING"].map String.data

/-- The static topic-keyword list `HIGH_IMPACT_ES_NQ` of
`src/breaking_news_bot.py`. -/
def HIGH_IMPACT_ES_NQ : List (List Char) :=
  ["FOMC", "FED RATE DECISION", "INTEREST RATE HIKE", "INTEREST RATE CUT",
   "QUANTITATIVE TIGHTENING", "BALANCE SHEET", "POWELL", "CENTRAL BANK",
   "CPI", "PCE", "INFLATION REPORT", "NONFARM PAYROLLS", "NFP",
   "UNEMPLOYMENT RATE", "JOLTS", "WAGE GROWTH",
   "GDP", "RECESSION", "MANUFACTURING PMI", "SERVICES PMI",
   "RETAIL SALES", "CONSUMER CONFIDENCE",
   "GOVERNMENT SHUTDOWN", "DEBT CEILING", "BUDGET DEFICIT",
   "TAX LEGISLATION", "STIMULUS PACKAGE",
   "TAIWAN STRAIT", "CHINA TARIFF", "TRADE WAR", "SANCTIONS",
   "MIDDLE EAST CONFLICT", "OIL EMBARGO", "RUSSIA UKRAINE",
   "AI REGULATION", "SEMICONDUCTOR BAN", "CHIP ACT", "ANTITRUST",
   "APPLE", "MICROSOFT", "NVIDIA", "META", "TESLA", "GOOGLE",
   "OPEC+", "CRUDE OIL", "NATURAL GAS", "ENERGY CRISIS",
   "VENEZUELA OIL", "SAUDI ARAMCO",
   "BANK FAILURE", "COMMERCIAL REAL ESTATE", "DEBT DEFAULT",
   "MONEY MARKET", "REPO MARKET", "MARGIN CALL"].map String.data

/-- The recency-phrase list `recent_keywords` local to
`calculate_impact_score`. -/
def recent_keywords : List (List Char) :=
  ["TODAY", "NOW", "MINUTES AGO", "JUST", "LIVE"].map String.data

/-- The exclusion list `irrelevant_terms` local to `is_relevant_news`. -/
def irrelevant_terms : List (List Char) :=
  ["SPORTS", "ENTERTAINMENT", "CELEBRITY", "RECIPE",
   "WEATHER", "HOROSCOPE", "GOSSIP", "FASHION"].map String.data

/-- Model of `calculate_impact_score` (`src/breaking_news_bot.py` lines
153-175): starting from 0, each matching urgency trigger adds 100, each
matching topic keyword adds `10 * len(keyword.split())`, each matching
recency phrase adds 20. -/
def calculate_impact_score (title : List Char) : Nat :=
  recent_keywords.foldl
    (fun s w => if containsSub (upper title) w then s + 20 else s)
    (HIGH_IMPACT_ES_NQ.foldl
      (fun s k => if containsSub (upper title) k then s + countWords k * 10 else s)
      (URGENT_TRIGGERS.foldl
        (fun s t => if containsSub (upper title) t then s + 100 else s) 0))

/-- Model of `generate_news_id` (`src/breaking_news_bot.py` lines 177-181):
the MD5 hex digest of `f"{title[:100]}_{source[:10]}"`.  The digest is
modelled as the identity on the combined pre-image string, since the code
only relies on the digest being a deterministic function of it. -/
def generate_news_id (title source : List Char) : List Char :=
  title.take 100 ++ ['_'] ++ source.take 10

/-- Model of `BreakingNewsBot2026.is_relevant_news` (`src/breaking_news_bot.py`
lines 196-212): if any exclusion term occurs in the upper-cased title the
result is `(false, 0)`; otherwise the impact score is computed and compared
against the threshold 30. -/
def is_relevant_news (title : List Char) : Bool × Nat :=
  let tu := upper title
  if irrelevant_terms.any (fun t => containsSub tu t) then (false, 0)
  else
    let score := calculate_impact_score title
    (decide (30 ≤ score), score)

/-- State of the backing file `seen_news.json` as seen by `json.load`:
absent (`os.path.exists` is false), empty or otherwise malformed (JSON
parsing raises), or a well-formed JSON object, modelled as an association
list from identity to timestamp (hours, `Int`). -/
inductive FileState where
  | absent : FileState
  | empty : FileState
  | malformed : FileState
  | json : List (List Char × Int) → FileState
deriving DecidableEq

/-- Model of `load_seen_news` (`src/breaking_news_bot.py` lines 112-135)
at current time `now`: an absent file returns the empty record; an empty
or malformed file makes `json.load` raise, the exception is caught and the
empty record is returned; a well-formed file is purged of every entry whose
timestamp is not strictly newer than `now - 48` hours, and the purged
record is what the run uses. -/
def load_seen_news (now : Int) : FileState → List (List Char × Int)
  | .absent => []
  | .empty => []
  | .malformed => []
  | .json data => data.filter (fun p => now - 48 < p.2)

/-- Python dict assignment `data[k] = v`: update in place if the key is
present, otherwise append at the end. -/
def dictInsert (data : List (List Char × Int)) (k : List Char) (v : Int) :
    List (List Char × Int) :=
  if k ∈ data.map Prod.fst then
    data.map (fun p => if p.1 = k then (k, v) else p)
  else data ++ [(k, v)]

/-- Model of `save_seen_news` (`src/breaking_news_bot.py` lines 137-151)
at current time `now`: an absent file is read as the empty dict and the
new entry is written; on an empty or malformed file `json.load` raises,
the exception is caught and the file is left unchanged; a well-formed file
gets the entry inserted (dict assignment) and written back. -/
def save_seen_news (now : Int) (news_id : List Char) :
    FileState → FileState
  | .absent => .json (dictInsert [] news_id now)
  | .empty => .empty
  | .malformed => .malformed
  | .json data => .json (dictInsert data news_id now)

/-- Membership of an identity among the keys of a seen record (the code
returns `set(cleaned_data.keys())` and tests `news_id in self.seen_news`). -/
def seen_contains (rec : List (List Char × Int)) (id : List Char) : Bool :=
  decide (id ∈ rec.map Prod.fst)

/-- Whether `json.load` succeeds on the file state (an absent file is read
as the empty dict by `save_seen_news`, so it counts as parseable). -/
def parseable : FileState → Bool
  | .absent => true
  | .empty => false
  | .malformed => false
  | .json _ => true

/-- Static configuration of one RSS feed: display name and priority weight
(the URL and the politeness delay play no role in the pipeline logic). -/
structure FeedConfig where
  name : List Char
  priority : Int
deriving DecidableEq

/-- A raw feed entry as delivered by the external parser: title, link,
publication timestamp (already resolved through the `published`/`updated`
fallback) and summary. -/
structure Entry where
  title : List Char
  link : List Char
  published : List Char
  summary : List Char
deriving DecidableEq

/-- A `NewsItem` dict as built by `fetch_feed` (`src/breaking_news_bot.py`
lines 249-258). -/
structure NewsItem where
  id : List Char
  title : List Char
  link : List Char
  source : List Char
  published : List Char
  score : Nat
  priority : Int
  summary : List Char
deriving DecidableEq

/-- The `RSS_FEEDS` configuration of `src/breaking_news_bot.py` lines
69-106 (names and priorities). -/
def RSS_FEEDS : List FeedConfig :=
  [⟨"Reuters Breaking News".data, 10⟩,
   ⟨"Bloomberg Markets".data, 9⟩,
   ⟨"Financial Times US".data, 8⟩,
   ⟨"CNBC Market News".data, 7⟩,
   ⟨"Yahoo Finance".data, 6⟩,
   ⟨"MarketWatch Top Stories".data, 5⟩]

/-- Model of the entry loop of `BreakingNewsBot2026.fetch_feed`
(`src/breaking_news_bot.py` lines 229-262), by structural recursion on the
entry list and explicit threading of the in-memory seen set: strip the
title, drop the entry if not relevant, compute its identity, drop it if
already seen, otherwise emit the item and mark the identity seen
immediately. -/
def process_entries (feed : FeedConfig) :
    List (List Char) → List Entry → List NewsItem × List (List Char)
  | seen, [] => ([], seen)
  | seen, e :: es =>
    let title := pyStrip e.title
    let rs := is_relevant_news title
    if rs.1 = false then process_entries feed seen es
    else
      let news_id := generate_news_id title feed.name
      if news_id ∈ seen then process_entries feed seen es
      else
        (⟨news_id, title, e.link, feed.name, e.published, rs.2,
          feed.priority, e.summary.take 200⟩ ::
            (process_entries feed (news_id :: seen) es).1,
         (process_entries feed (news_id :: seen) es).2)

/-- Model of `BreakingNewsBot2026.fetch_feed`: only the top 10 entries of
the feed are examined. -/
def fetch_feed (seen : List (List Char)) (feed : FeedConfig)
    (entries : List Entry) : List NewsItem × List (List Char) :=
  process_entries feed seen (entries.take 10)

/-- Descending-priority order on configured feeds paired with their parsed
entries, used to model the stable `sorted(RSS_FEEDS, key=priority,
reverse=True)` of `fetch_all_news`. -/
def feedGe (a b : FeedConfig × List Entry) : Prop :=
  b.1.priority ≤ a.1.priority

instance : DecidableRel feedGe := fun a b =>
  inferInstanceAs (Decidable (b.1.priority ≤ a.1.priority))

/-- Stable descending-priority sort of the feed list (Python `sorted` with
`reverse=True` is stable; `insertionSort` with `feedGe` inserts each feed
before the first later feed of strictly lower priority, which preserves
the original order among equal priorities). -/
def sortFeeds (feeds : List (FeedConfig × List Entry)) :
    List (FeedConfig × List Entry) :=
  List.insertionSort feedGe feeds

/-- The feed loop of `BreakingNewsBot2026.fetch_all_news`, threading the
seen set from one feed to the next. -/
def fetch_all_go :
    List (List Char) → List (FeedConfig × List Entry) →
    List NewsItem × List (List Char)
  | seen, [] => ([], seen)
  | seen, (f, es) :: rest =>
    let r1 := fetch_feed seen f es
    let r2 := fetch_all_go r1.2 rest
    (r1.1 ++ r2.1, r2.2)

/-- Model of `BreakingNewsBot2026.fetch_all_news` (`src/breaking_news_bot.py`
lines 269-280): the feeds (each paired with the entries the external
parser returned for it) are processed in descending priority order,
accumulating all emitted items and threading the seen set. -/
def fetch_all_news (seen0 : List (List Char))
    (feeds : List (FeedConfig × List Entry)) :
    List NewsItem × List (List Char) :=
  fetch_all_go seen0 (sortFeeds feeds)

/-- The severity tier of `BreakingNewsBot2026.format_discord_message`
(`src/breaking_news_bot.py` lines 321-335): colour and emoji chosen by
urgency first, then by score thresholds. -/
def severity (title : List Char) (score : Nat) : Nat × String :=
  let is_urgent := URGENT_TRIGGERS.any (fun w => containsSub (upper title) w)
  if is_urgent then (0xFF0000, "🚨")
  else if 80 < score then (0xFFA500, "⚠️")
  else if 50 < score then (0xFFFF00, "📈")
  else (0x00FF00, "📰")

/-- Descending order on items by impact score, ties broken by feed
priority: the model of `key=lambda x: (x['score'], x['priority']),
reverse=True` in `run_once` (`src/breaking_news_bot.py` line 427). -/
def newsGe (a b : NewsItem) : Prop :=
  b.score < a.score ∨ (b.score = a.score ∧ b.priority ≤ a.priority)

instance : DecidableRel newsGe := fun a b =>
  inferInstanceAs
    (Decidable (b.score < a.score ∨ (b.score = a.score ∧ b.priority ≤ a.priority)))

/-- The alert selector of `run_once` (`src/breaking_news_bot.py` lines
426-430): stable sort by (score, priority) descending, then truncation to
the top 3. -/
def select (items : List NewsItem) : List NewsItem :=
  (List.insertionSort newsGe items).take 3

/-! ### Helper lemmas -/

/-- Scoring folds of the form used by `calculate_impact_score` never
decrease the accumulator. -/
theorem le_foldl_bonus {α : Type} (p : α → Bool) (w : α → Nat) :
    ∀ (l : List α) (s : Nat),
      s ≤ l.foldl (fun acc x => if p x then acc + w x else acc) s
  | [], s => le_refl s
  | x :: l, s => by
    rw [List.foldl_cons]
    have h1 : s ≤ (if p x then s + w x else s) := by split <;> omega
    exact le_trans h1 (le_foldl_bonus p w l _)

/-- A scoring fold collects at least the bonus of any matching member. -/
theorem foldl_bonus_of_mem {α : Type} (p : α → Bool) (w : α → Nat) :
    ∀ (l : List α) (s : Nat) (x : α), x ∈ l → p x = true →
      s + w x ≤ l.foldl (fun acc y => if p y then acc + w y else acc) s
  | y :: l, s, x, hx, hp => by
    rw [List.foldl_cons]
    rcases List.mem_cons.mp hx with h | h
    · subst h
      rw [if_pos hp]
      exact le_foldl_bonus p w l (s + w x)
    · have h1 : s ≤ (if p y then s + w y else s) := by split <;> omega
      have h2 : s + w x ≤ (if p y then s + w y else s) + w x := by omega
      exact le_trans h2 (foldl_bonus_of_mem p w l _ x h hp)

/-- Any title matching an urgency trigger scores at least 100. -/
theorem trigger_score_ge (title : List Char)
    (h : (URGENT_TRIGGERS.any fun t => containsSub (upper title) t) = true) :
    100 ≤ calculate_impact_score title := by
  obtain ⟨t, ht, hc⟩ := List.any_eq_true.mp h
  unfold calculate_impact_score
  have h1 : (0 : Nat) + 100 ≤
      URGENT_TRIGGERS.foldl
        (fun s t => if containsSub (upper title) t then s + 100 else s) 0 :=
    foldl_bonus_of_mem (fun t => containsSub (upper title) t) (fun _ => 100)
      URGENT_TRIGGERS 0 t ht hc
  have h2 := le_foldl_bonus (fun k => containsSub (upper title) k)
    (fun k => countWords k * 10) HIGH_IMPACT_ES_NQ
    (URGENT_TRIGGERS.foldl
      (fun s t => if containsSub (upper title) t then s + 100 else s) 0)
  have h3 := le_foldl_bonus (fun w => containsSub (upper title) w)
    (fun _ => 20) recent_keywords
    (HIGH_IMPACT_ES_NQ.foldl
      (fun s k => if containsSub (upper title) k then s + countWords k * 10 else s)
      (URGENT_TRIGGERS.foldl
        (fun s t => if containsSub (upper title) t then s + 100 else s) 0))
  omega

/-- Dict assignment always leaves the assigned pair in the dict. -/
theorem mem_dictInsert_self (data : List (List Char × Int)) (k : List Char)
    (v : Int) : (k, v) ∈ dictInsert data k v := by
  unfold dictInsert
  split
  · next hc =>
      obtain ⟨p, hp, hpk⟩ := List.mem_map.mp hc
      exact List.mem_map.mpr ⟨p, hp, by simp [hpk]⟩
  · exact List.mem_append.mpr (Or.inr (List.mem_singleton.mpr rfl))

/-- Unfolding equation of `process_entries` for an irrelevant entry. -/
theorem process_cons_not_rel (f : FeedConfig) (seen : List (List Char))
    (e : Entry) (es : List Entry)
    (h : (is_relevant_news (pyStrip e.title)).1 = false) :
    process_entries f seen (e :: es) = process_entries f seen es := by
  simp only [process_entries, if_pos h]

/-- Unfolding equation of `process_entries` for a relevant entry whose
identity has already been seen. -/
theorem process_cons_seen (f : FeedConfig) (seen : List (List Char))
    (e : Entry) (es : List Entry)
    (h1 : ¬(is_relevant_news (pyStrip e.title)).1 = false)
    (h2 : generate_news_id (pyStrip e.title) f.name ∈ seen) :
    process_entries f seen (e :: es) = process_entries f seen es := by
  simp only [process_entries, if_neg h1, if_pos h2]

/-- Unfolding equation of `process_entries` for a relevant, not yet seen
entry: the item is emitted and its identity is marked seen immediately. -/
theorem process_cons_emit (f : FeedConfig) (seen : List (List Char))
    (e : Entry) (es : List Entry)
    (h1 : ¬(is_relevant_news (pyStrip e.title)).1 = false)
    (h2 : generate_news_id (pyStrip e.title) f.name ∉ seen) :
    process_entries f seen (e :: es) =
      (⟨generate_news_id (pyStrip e.title) f.name, pyStrip e.title, e.link,
        f.name, e.published, (is_relevant_news (pyStrip e.title)).2,
        f.priority, e.summary.take 200⟩ ::
          (process_entries f
            (generate_news_id (pyStrip e.title) f.name :: seen) es).1,
       (process_entries f
         (generate_news_id (pyStrip e.title) f.name :: seen) es).2) := by
  simp only [process_entries, if_neg h1, if_neg h2]

/-- The seen set only grows while a feed's entries are traversed. -/
theorem process_mem_seen (f : FeedConfig) :
    ∀ (es : List Entry) (seen : List (List Char)) (x : List Char),
      x ∈ seen → x ∈ (process_entries f seen es).2
  | [], _, _, hx => hx
  | e :: es, seen, x, hx => by
    by_cases h1 : (is_relevant_news (pyStrip e.title)).1 = false
    · rw [process_cons_not_rel f seen e es h1]
      exact process_mem_seen f es seen x hx
    · by_cases h2 : generate_news_id (pyStrip e.title) f.name ∈ seen
      · rw [process_cons_seen f seen e es h1 h2]
        exact process_mem_seen f es seen x hx
      · rw [process_cons_emit f seen e es h1 h2]
        exact process_mem_seen f es _ x (List.mem_cons_of_mem _ hx)

/-- Every item emitted while traversing a feed has its identity in the
final seen set. -/
theorem process_id_mem_seen (f : FeedConfig) :
    ∀ (es : List Entry) (seen : List (List Char)) (i : NewsItem),
      i ∈ (process_entries f seen es).1 → i.id ∈ (process_entries f seen es).2
  | [], _, _, hi => absurd hi (List.not_mem_nil _)
  | e :: es, seen, i, hi => by
    by_cases h1 : (is_relevant_news (pyStrip e.title)).1 = false
    · rw [process_cons_not_rel f seen e es h1] at hi ⊢
      exact process_id_mem_seen f es seen i hi
    · by_cases h2 : generate_news_id (pyStrip e.title) f.name ∈ seen
      · rw [process_cons_seen f seen e es h1 h2] at hi ⊢
        exact process_id_mem_seen f es seen i hi
      · rw [process_cons_emit f seen e es h1 h2] at hi ⊢
        rcases List.mem_cons.mp hi with h | h
        · subst h
          exact process_mem_seen f es _ _ (List.mem_cons_self _ _)
        · exact process_id_mem_seen f es _ i h

/-- Every item emitted while traversing a feed was not already seen when
the traversal started. -/
theorem process_id_not_seen (f : FeedConfig) :
    ∀ (es : List Entry) (seen : List (List Char)) (i : NewsItem),
      i ∈ (process_entries f seen es).1 → i.id ∉ seen
  | [], _, _, hi => absurd hi (List.not_mem_nil _)
  | e :: es, seen, i, hi => by
    by_cases h1 : (is_relevant_news (pyStrip e.title)).1 = false
    · rw [process_cons_not_rel f seen e es h1] at hi
      exact process_id_not_seen f es seen i hi
    · by_cases h2 : generate_news_id (pyStrip e.title) f.name ∈ seen
      · rw [process_cons_seen f seen e es h1 h2] at hi
        exact process_id_not_seen f es seen i hi
      · rw [process_cons_emit f seen e es h1 h2] at hi
        rcases List.mem_cons.mp hi with h | h
        · subst h
          exact h2
        · intro hseen
          exact process_id_not_seen f es _ i h (List.mem_cons_of_mem _ hseen)

/-- The identities of the items emitted for one feed are pairwise
distinct. -/
theorem process_nodup (f : FeedConfig) :
    ∀ (es : List Entry) (seen : List (List Char)),
      (((process_entries f seen es).1).map NewsItem.id).Nodup
  | [], _ => List.nodup_nil
  | e :: es, seen => by
    by_cases h1 : (is_relevant_news (pyStrip e.title)).1 = false
    · rw [process_cons_not_rel f seen e es h1]
      exact process_nodup f es seen
    · by_cases h2 : generate_news_id (pyStrip e.title) f.name ∈ seen
      · rw [process_cons_seen f seen e es h1 h2]
        exact process_nodup f es seen
      · rw [process_cons_emit f seen e es h1 h2]
        simp only [List.map_cons, List.nodup_cons]
        refine ⟨fun hmem => ?_, process_nodup f es _⟩
        obtain ⟨j, hj, hjid⟩ := List.mem_map.mp hmem
        exact process_id_not_seen f es _ j hj (hjid ▸ List.mem_cons_self _ _)

/-- Every emitted identity is the identity of one of the feed's entries. -/
theorem process_id_mem_entries (f : FeedConfig) :
    ∀ (es : List Entry) (seen : List (List Char)) (i : NewsItem),
      i ∈ (process_entries f seen es).1 →
      i.id ∈ es.map (fun e => generate_news_id (pyStrip e.title) f.name)
  | [], _, _, hi => absurd hi (List.not_mem_nil _)
  | e :: es, seen, i, hi => by
    simp only [List.map_cons]
    by_cases h1 : (is_relevant_news (pyStrip e.title)).1 = false
    · rw [process_cons_not_rel f seen e es h1] at hi
      exact List.mem_cons_of_mem _ (process_id_mem_entries f es seen i hi)
    · by_cases h2 : generate_news_id (pyStrip e.title) f.name ∈ seen
      · rw [process_cons_seen f seen e es h1 h2] at hi
        exact List.mem_cons_of_mem _ (process_id_mem_entries f es seen i hi)
      · rw [process_cons_emit f seen e es h1 h2] at hi
        rcases List.mem_cons.mp hi with h | h
        · subst h
          exact List.mem_cons_self _ _
        · exact List.mem_cons_of_mem _ (process_id_mem_entries f es _ i h)

/-- The seen set only grows across the whole multi-feed traversal. -/
theorem go_mem_seen :
    ∀ (feeds : List (FeedConfig × List Entry)) (seen : List (List Char))
      (x : List Char), x ∈ seen → x ∈ (fetch_all_go seen feeds).2
  | [], _, _, hx => hx
  | (f, es) :: rest, seen, x, hx => by
    simp only [fetch_all_go, fetch_feed]
    exact go_mem_seen rest _ x (process_mem_seen f (es.take 10) seen x hx)

/-- Every item emitted by the multi-feed traversal has its identity in the
final seen set. -/
theorem go_id_mem_seen :
    ∀ (feeds : List (FeedConfig × List Entry)) (seen : List (List Char))
      (i : NewsItem),
      i ∈ (fetch_all_go seen feeds).1 → i.id ∈ (fetch_all_go seen feeds).2
  | [], _, _, hi => absurd hi (List.not_mem_nil _)
  | (f, es) :: rest, seen, i, hi => by
    simp only [fetch_all_go, fetch_feed] at hi ⊢
    rcases List.mem_append.mp hi with h | h
    · exact go_mem_seen rest _ _
        (process_id_mem_seen f (es.take 10) seen i h)
    · exact go_id_mem_seen rest _ i h

/-- Every item emitted by the multi-feed traversal was not already seen
when the traversal started. -/
theorem go_id_not_seen :
    ∀ (feeds : List (FeedConfig × List Entry)) (seen : List (List Char))
      (i : NewsItem), i ∈ (fetch_all_go seen feeds).1 → i.id ∉ seen
  | [], _, _, hi => absurd hi (List.not_mem_nil _)
  | (f, es) :: rest, seen, i, hi => by
    simp only [fetch_all_go, fetch_feed] at hi
    rcases List.mem_append.mp hi with h | h
    · exact process_id_not_seen f (es.take 10) seen i h
    · intro hseen
      exact go_id_not_seen rest _ i h
        (process_mem_seen f (es.take 10) seen _ hseen)

/-- The identities emitted by the whole multi-feed traversal are pairwise
distinct. -/
theorem go_nodup :
    ∀ (feeds : List (FeedConfig × List Entry)) (seen : List (List Char)),
      (((fetch_all_go seen feeds).1).map NewsItem.id).Nodup
  | [], _ => List.nodup_nil
  | (f, es) :: rest, seen => by
    simp only [fetch_all_go, fetch_feed, List.map_append]
    refine List.Nodup.append (process_nodup f (es.take 10) seen)
      (go_nodup rest _) ?_
    intro a ha hb
    obtain ⟨i, hi, hiid⟩ := List.mem_map.mp ha
    obtain ⟨j, hj, hjid⟩ := List.mem_map.mp hb
    have hmem : a ∈ (process_entries f seen (es.take 10)).2 :=
      hiid ▸ process_id_mem_seen f (es.take 10) seen i hi
    exact go_id_not_seen rest _ j hj (hjid ▸ hmem)

instance : IsTotal NewsItem newsGe :=
  ⟨fun a b => by unfold newsGe; omega⟩

instance : IsTrans NewsItem newsGe :=
  ⟨fun a b c hab hbc => by unfold newsGe at hab hbc ⊢; omega⟩

/-- A duplicate-free list whose members are all equal to the same value
has at most one element. -/
theorem nodup_const_length_le_one {α : Type} (c : α) :
    ∀ l : List α, l.Nodup → (∀ x ∈ l, x = c) → l.length ≤ 1
  | [], _, _ => by simp
  | [_], _, _ => by simp
  | a :: b :: l, hnd, hall => by
    have ha : a = c := hall a (List.mem_cons_self _ _)
    have hb : b = c := hall b (List.mem_cons_of_mem _ (List.mem_cons_self _ _))
    have : a ≠ b := by
      have := List.nodup_cons.mp hnd
      exact fun h => this.1 (h ▸ List.mem_cons_self _ _)
    exact absurd (ha.trans hb.symm) this

/-! ### Claim theorems -/

/-- C1 (counterexample): the claim that a headline appearing verbatim in two
different feeds is emitted only from the highest-priority feed is false:
`generate_news_id` mixes the first 10 characters of the source name into
the identity, so the relevant title "BREAKING: FOMC cuts rates" carried by
both the priority-10 Reuters feed and the priority-6 Yahoo feed is emitted
twice, once per feed. -/
theorem C1_cross_feed_counterexample :
    (is_relevant_news ("BREAKING: FOMC cuts rates".data)).1 = true ∧
    ((fetch_all_news []
        [(⟨"Reuters Breaking News".data, 10⟩,
          [⟨"BREAKING: FOMC cuts rates".data, [], [], []⟩]),
         (⟨"Yahoo Finance".data, 6⟩,
          [⟨"BREAKING: FOMC cuts rates".data, [], [], []⟩])]).1).map
      NewsItem.source =
      ["Reuters Breaking News".data, "Yahoo Finance".data] := by
  decide

/-- C1 (amended): if the same relevant headline appears verbatim in two
feeds processed in descending priority order AND the two feeds' names
agree on their first 10 characters (so that the source prefix inside the
identity coincides), then only the highest-priority feed's copy is
emitted; the lower-priority copy is skipped as already seen. -/
theorem C1_dedup_amended :
    ∀ (f1 f2 : FeedConfig) (e : Entry),
      f1.name.take 10 = f2.name.take 10 →
      f2.priority ≤ f1.priority →
      (is_relevant_news (pyStrip e.title)).1 = true →
      ((fetch_all_news [] [(f1, [e]), (f2, [e])]).1).map NewsItem.source =
        [f1.name] := by
  intro f1 f2 e hn hp hrel
  have hrel' : ¬(is_relevant_news (pyStrip e.title)).1 = false := by
    simp [hrel]
  have hid : generate_news_id (pyStrip e.title) f2.name =
      generate_news_id (pyStrip e.title) f1.name := by
    simp [generate_news_id, hn]
  have hsort : sortFeeds [(f1, [e]), (f2, [e])] = [(f1, [e]), (f2, [e])] := by
    simp only [sortFeeds, List.insertionSort, List.orderedInsert_nil]
    exact List.orderedInsert_of_le feedGe [] hp
  have ht : ([e] : List Entry).take 10 = [e] := rfl
  have h1 : process_entries f1 [] [e] =
      (⟨generate_news_id (pyStrip e.title) f1.name, pyStrip e.title, e.link,
        f1.name, e.published, (is_relevant_news (pyStrip e.title)).2,
        f1.priority, e.summary.take 200⟩ ::
          (process_entries f1
            (generate_news_id (pyStrip e.title) f1.name :: []) []).1,
       (process_entries f1
         (generate_news_id (pyStrip e.title) f1.name :: []) []).2) :=
    process_cons_emit f1 [] e [] hrel' (List.not_mem_nil _)
  have hnil1 : process_entries f1
      [generate_news_id (pyStrip e.title) f1.name] [] =
      ([], [generate_news_id (pyStrip e.title) f1.name]) := rfl
  have h2 : process_entries f2
      [generate_news_id (pyStrip e.title) f1.name] [e] =
      process_entries f2 [generate_news_id (pyStrip e.title) f1.name] [] :=
    process_cons_seen f2 _ e [] hrel'
      (by rw [hid]; exact List.mem_cons_self _ _)
  have hnil2 : process_entries f2
      [generate_news_id (pyStrip e.title) f1.name] [] =
      ([], [generate_news_id (pyStrip e.title) f1.name]) := rfl
  unfold fetch_all_news
  rw [hsort]
  simp only [fetch_all_go, fetch_feed, ht, h1, hnil1, h2, hnil2]
  simp

/-- C1 (witness): the amended claim at a concrete input: two feeds named
"Reuters Breaking News" (priority 10) and "Reuters Broadcast" (priority
6) share the 10-character name prefix "Reuters Br", so the relevant title
"BREAKING: FOMC cuts rates" is emitted only from the priority-10 feed. -/
theorem C1_dedup_amended_witness :
    ("Reuters Breaking News".data.take 10 =
      "Reuters Broadcast".data.take 10) ∧
    ((6 : Int) ≤ 10) ∧
    (is_relevant_news (pyStrip ("BREAKING: FOMC cuts rates".data))).1 = true ∧
    ((fetch_all_news []
        [(⟨"Reuters Breaking News".data, 10⟩,
          [⟨"BREAKING: FOMC cuts rates".data, [], [], []⟩]),
         (⟨"Reuters Broadcast".data, 6⟩,
          [⟨"BREAKING: FOMC cuts rates".data, [], [], []⟩])]).1).map
      NewsItem.source = ["Reuters Breaking News".data] := by
  refine ⟨by decide, by decide, by decide, ?_⟩
  exact C1_dedup_amended ⟨"Reuters Breaking News".data, 10⟩
    ⟨"Reuters Broadcast".data, 6⟩
    ⟨"BREAKING: FOMC cuts rates".data, [], [], []⟩
    (by decide) (by decide) (by decide)

/-- C2: for every title in which some exclusion term occurs (as a substring
of the upper-cased title), `is_relevant_news` returns `(false, 0)`,
regardless of any co-occurring trigger, keyword or recency phrase:
exclusion short-circuits all scoring. -/
theorem C2_exclusion_short_circuit :
    ∀ title : List Char,
      (irrelevant_terms.any fun t => containsSub (upper title) t) = true →
      is_relevant_news title = (false, 0) := by
  intro title h
  simp [is_relevant_news, h]

/-- C2 (witness): the exclusion term "SPORTS" forces `(false, 0)` even
though the urgency trigger "BREAKING" also occurs in the title. -/
theorem C2_exclusion_short_circuit_witness :
    ((irrelevant_terms.any fun t =>
      containsSub (upper ("BREAKING SPORTS".data)) t) = true) ∧
    is_relevant_news ("BREAKING SPORTS".data) = (false, 0) :=
  ⟨by decide, C2_exclusion_short_circuit ("BREAKING SPORTS".data) (by decide)⟩

/-- C3 (counterexample): the claim that `isRelevant` returns true on every
title containing an urgency trigger is false: "SPORTS ALERT" contains the
trigger "ALERT" but also the exclusion term "SPORTS", and
`is_relevant_news` returns `(false, 0)` on it. -/
theorem C3_urgent_excluded_counterexample :
    ("ALERT".data ∈ URGENT_TRIGGERS) ∧
    containsSub (upper ("SPORTS ALERT".data)) ("ALERT".data) = true ∧
    (is_relevant_news ("SPORTS ALERT".data)).1 = false := by
  decide

/-- C3 (amended): every title containing at least one urgency trigger has
impact score at least the relevance threshold 30 (in fact at least 100);
and provided no exclusion term occurs in the title, `is_relevant_news`
returns true with that score, so an urgent headline clears the threshold
on its own. -/
theorem C3_urgency_amended :
    ∀ title : List Char,
      (URGENT_TRIGGERS.any fun t => containsSub (upper title) t) = true →
      30 ≤ calculate_impact_score title ∧
        ((irrelevant_terms.any fun t => containsSub (upper title) t) = false →
          is_relevant_news title = (true, calculate_impact_score title)) := by
  intro title htrig
  have h100 := trigger_score_ge title htrig
  refine ⟨by omega, fun hexcl => ?_⟩
  have h30 : 30 ≤ calculate_impact_score title := by omega
  simp [is_relevant_news, hexcl, h30]

/-- C3 (witness): the amended claim at the concrete title "BREAKING",
which contains a trigger and no exclusion term, scoring 100. -/
theorem C3_urgency_amended_witness :
    ((URGENT_TRIGGERS.any fun t =>
      containsSub (upper ("BREAKING".data)) t) = true) ∧
    (30 ≤ calculate_impact_score ("BREAKING".data) ∧
      ((irrelevant_terms.any fun t =>
        containsSub (upper ("BREAKING".data)) t) = false →
        is_relevant_news ("BREAKING".data) =
          (true, calculate_impact_score ("BREAKING".data)))) :=
  ⟨by decide, C3_urgency_amended ("BREAKING".data) (by decide)⟩

/-- C4: within a single run the aggregator never emits two items with the
same identity, whatever the initial seen set and whatever entries the
feeds deliver: the emitted identities are pairwise distinct. -/
theorem C4_emitted_ids_nodup :
    ∀ (seen0 : List (List Char)) (feeds : List (FeedConfig × List Entry)),
      (((fetch_all_news seen0 feeds).1).map NewsItem.id).Nodup := by
  intro seen0 feeds
  exact go_nodup (sortFeeds feeds) seen0

/-- C5: after the load-time purge every entry of the returned record has a
timestamp strictly inside the rolling 48-hour window, and in particular a
store holding an entry 50 hours old and an entry 2 hours old yields, after
load at time 100, exactly the 2-hour entry. -/
theorem C5_retention_window :
    ∀ (now : Int) (data : List (List Char × Int)),
      ((load_seen_news now (.json data)).all
        fun p => decide (now - 48 < p.2)) = true ∧
      load_seen_news 100 (.json [("a".data, 50), ("b".data, 98)]) =
        [("b".data, 98)] := by
  intro now data
  refine ⟨?_, by decide⟩
  rw [List.all_eq_true]
  intro p hp
  exact (List.mem_filter.mp hp).2

/-- C6: `load_seen_news` never fails the run: an absent, empty or malformed
backing file is treated as no prior state and yields the empty record. -/
theorem C6_tolerant_load :
    ∀ now : Int,
      load_seen_news now .absent = [] ∧ load_seen_news now .empty = [] ∧
      load_seen_news now .malformed = [] :=
  fun _ => ⟨rfl, rfl, rfl⟩

/-- C7 (counterexample): the round-trip claim fails as stated: when the
backing file is malformed, `save_seen_news` catches the JSON parse error
and records nothing, so a fresh load does not contain the identity. -/
theorem C7_roundtrip_counterexample :
    seen_contains (load_seen_news 0 (save_seen_news 0 ("x".data) .malformed))
      ("x".data) = false := by
  decide

/-- C7 (amended): provided the backing file is absent or well-formed JSON
at record time, `record(id)` followed by a fresh load at the same time
yields a record containing `id` (the fresh timestamp lies inside the
48-hour retention window, so the load-time purge keeps it). -/
theorem C7_roundtrip_amended :
    ∀ (fs : FileState) (id : List Char) (now : Int), parseable fs = true →
      seen_contains (load_seen_news now (save_seen_news now id fs)) id =
        true := by
  intro fs id now hpar
  cases fs with
  | absent =>
    have h48 : now - 48 < now := by omega
    simp [save_seen_news, dictInsert, load_seen_news, seen_contains, h48]
  | empty => simp [parseable] at hpar
  | malformed => simp [parseable] at hpar
  | json data =>
    have h48 : now - 48 < now := by omega
    have hmem : (id, now) ∈ dictInsert data id now :=
      mem_dictInsert_self data id now
    simp only [save_seen_news, load_seen_news, seen_contains,
      decide_eq_true_eq]
    exact List.mem_map.mpr
      ⟨(id, now), List.mem_filter.mpr ⟨hmem, by simp [h48]⟩, rfl⟩

/-- C7 (witness): the amended round trip at a concrete input: recording
"x" into an absent store and loading at the same time finds "x". -/
theorem C7_roundtrip_amended_witness :
    parseable .absent = true ∧
      seen_contains (load_seen_news 0 (save_seen_news 0 ("x".data) .absent))
        ("x".data) = true :=
  ⟨rfl, C7_roundtrip_amended .absent ("x".data) 0 rfl⟩

/-- C8: on the title "BREAKING: FOMC cuts rates" no exclusion term
matches, exactly the trigger "BREAKING" (+100) and the keyword "FOMC"
(+10) match, no recency phrase matches, the score is exactly 110 ≥ 30 so
the title is relevant, and the severity tier is urgent (red `0xFF0000`
with the siren emoji). -/
theorem C8_scenario_fomc :
    (irrelevant_terms.any fun t =>
      containsSub (upper ("BREAKING: FOMC cuts rates".data)) t) = false ∧
    URGENT_TRIGGERS.filter
      (fun t => containsSub (upper ("BREAKING: FOMC cuts rates".data)) t) =
      ["BREAKING".data] ∧
    HIGH_IMPACT_ES_NQ.filter
      (fun k => containsSub (upper ("BREAKING: FOMC cuts rates".data)) k) =
      ["FOMC".data] ∧
    recent_keywords.filter
      (fun w => containsSub (upper ("BREAKING: FOMC cuts rates".data)) w) =
      [] ∧
    calculate_impact_score ("BREAKING: FOMC cuts rates".data) = 110 ∧
    is_relevant_news ("BREAKING: FOMC cuts rates".data) = (true, 110) ∧
    severity ("BREAKING: FOMC cuts rates".data) 110 = (0xFF0000, "🚨") := by
  decide

/-- C9: for every input list the alert selector's output is the 3-element
truncation of a list that is a permutation of the input sorted by score
descending with ties broken by priority descending; in particular it is a
prefix of that sorted order and has length at most 3. -/
theorem C9_selector_budget :
    ∀ items : List NewsItem, ∃ s : List NewsItem,
      s.Perm items ∧ s.Sorted newsGe ∧ select items = s.take 3 ∧
      select items <+: s ∧ (select items).length ≤ 3 := by
  intro items
  refine ⟨List.insertionSort newsGe items,
    List.perm_insertionSort newsGe items,
    List.sorted_insertionSort newsGe items, rfl,
    ⟨List.drop 3 (List.insertionSort newsGe items),
      List.take_append_drop 3 (List.insertionSort newsGe items)⟩, ?_⟩
  have hlen : (select items).length =
      min 3 (List.insertionSort newsGe items).length := by
    simp [select]
  omega

/-- C10: the identity token depends only on the first 100 characters of
the title and the first 10 characters of the source; consequently, within
one feed, two entries whose stripped titles share a 100-character prefix
receive the same identity and at most one of them is emitted. -/
theorem C10_identity_prefix_dependence :
    (∀ t1 t2 s1 s2 : List Char, t1.take 100 = t2.take 100 →
      s1.take 10 = s2.take 10 →
      generate_news_id t1 s1 = generate_news_id t2 s2) ∧
    (∀ (f : FeedConfig) (seen : List (List Char)) (e1 e2 : Entry),
      (pyStrip e1.title).take 100 = (pyStrip e2.title).take 100 →
      ((fetch_feed seen f [e1, e2]).1).length ≤ 1) := by
  constructor
  · intro t1 t2 s1 s2 ht hs
    simp [generate_news_id, ht, hs]
  · intro f seen e1 e2 hpre
    have hid : generate_news_id (pyStrip e2.title) f.name =
        generate_news_id (pyStrip e1.title) f.name := by
      simp [generate_news_id, hpre]
    have htake : ([e1, e2] : List Entry).take 10 = [e1, e2] := rfl
    have hnd := process_nodup f (([e1, e2] : List Entry).take 10) seen
    have hall : ∀ x ∈ ((process_entries f seen
        (([e1, e2] : List Entry).take 10)).1).map NewsItem.id,
        x = generate_news_id (pyStrip e1.title) f.name := by
      intro x hx
      obtain ⟨i, hi, hix⟩ := List.mem_map.mp hx
      have hsrc := process_id_mem_entries f
        (([e1, e2] : List Entry).take 10) seen i hi
      rw [htake] at hsrc
      simp only [List.map_cons, List.map_nil, hid] at hsrc
      rcases List.mem_cons.mp hsrc with h | h
      · exact hix ▸ h
      · exact hix ▸ List.mem_singleton.mp h
    have hlen := nodup_const_length_le_one
      (generate_news_id (pyStrip e1.title) f.name) _ hnd hall
    simpa [fetch_feed, List.length_map] using hlen

/-- C10 (witness): two distinct 101-character titles sharing a
100-character prefix from the same feed receive the same identity, and a
feed carrying both emits at most one item. -/
theorem C10_identity_prefix_dependence_witness :
    ((List.replicate 100 'A').take 100 =
      (List.replicate 100 'A' ++ ['B']).take 100) ∧
    generate_news_id (List.replicate 100 'A') ("SRC".data) =
      generate_news_id (List.replicate 100 'A' ++ ['B']) ("SRC".data) ∧
    ((fetch_feed [] ⟨"F".data, 1⟩
        [⟨List.replicate 100 'A', [], [], []⟩,
         ⟨List.replicate 100 'A' ++ ['B'], [], [], []⟩]).1).length ≤ 1 := by
  refine ⟨by decide, ?_, ?_⟩
  · exact C10_identity_prefix_dependence.1 (List.replicate 100 'A')
      (List.replicate 100 'A' ++ ['B']) ("SRC".data) ("SRC".data)
      (by decide) (by decide)
  · exact C10_identity_prefix_dependence.2 ⟨"F".data, 1⟩ []
      ⟨List.replicate 100 'A', [], [], []⟩
      ⟨List.replicate 100 'A' ++ ['B'], [], [], []⟩ (by decide)

end NewsBot
